import Mathlib

/-
Verification of the live voice audio pipeline of this repository:
the PCM16 codec and base64 transport helpers of the service module
(createPcmBlob, arrayBufferToBase64, base64ToArrayBuffer) and the
LiveVoiceMode component (decodeRawPcm, playAudioChunk,
handleServerMessage, cleanup, toggleMute, setupAudioInput).

Audio samples are modeled as exact rationals: every JavaScript number
appearing in these computations is a binary float, and for float inputs
all intermediate products (sample times 32767 or 32768) are below 2^53,
so the JavaScript evaluation is exact and agrees with the rational one.
Machine integer conversion (Int16Array element assignment) is modeled
explicitly as truncation toward zero followed by a wrap into
[-32768, 32768).  Fallible platform operations (Int16Array construction
on an odd-length buffer, createBuffer with zero frames, stopping an
already-stopped node) are modeled with Except.
-/

namespace VoicePipeline

/-- JavaScript platform exceptions relevant to this pipeline:
RangeError from constructing an Int16Array over a buffer whose byte
length is not a multiple of 2, NotSupportedError from createBuffer with
a zero frame count, InvalidStateError from stopping an audio node whose
stop method was already called. -/
inductive JsError
  | rangeError
  | notSupported
  | invalidState
deriving DecidableEq, Repr

/- ------------------------------------------------------------------ -/
/- PCM16 codec, from createPcmBlob (services module, lines 201-215)
   and decodeRawPcm (LiveVoiceMode.tsx, lines 201-213).              -/
/- ------------------------------------------------------------------ -/

/-- Sample clamping, from createPcmBlob line 206:
Math.max(-1, Math.min(1, data[i])). -/
def clamp (s : ℚ) : ℚ := max (-1) (min 1 s)

/-- Truncation toward zero, the integer-conversion step JavaScript
applies when a number is assigned into an Int16Array element. -/
def truncQ (q : ℚ) : ℤ := if q < 0 then -⌊-q⌋ else ⌊q⌋

/-- Wrap of an integer into the signed 16-bit range [-32768, 32768),
the second step of the Int16Array element assignment. -/
def toInt16 (n : ℤ) : ℤ := (n + 32768) % 65536 - 32768

/-- One sample of createPcmBlob (lines 206-208): clamp, then scale a
negative value by 0x8000 = 32768 and a non-negative one by
0x7FFF = 32767, then store into the Int16Array element. -/
def encodeSample (s : ℚ) : ℤ :=
  let c := clamp s
  toInt16 (truncQ (if c < 0 then c * 32768 else c * 32767))

/-- The two bytes an Int16Array element occupies in its backing buffer,
least significant byte first (the layout the platform uses and the wire
format of the remote endpoint). -/
def int16ToLEBytes (v : ℤ) : List ℕ :=
  let u := (v % 65536).toNat
  [u % 256, u / 256]

/-- Byte content of the buffer built by createPcmBlob (lines 201-215)
before the base64 transport step: each input sample contributes one
encoded Int16Array element, two bytes, little endian. -/
def createPcmBlobBytes (data : List ℚ) : List ℕ :=
  (data.map (fun s => int16ToLEBytes (encodeSample s))).flatten

/-- Reading one Int16Array element back from two buffer bytes. -/
def fromLEInt16 (lo hi : ℕ) : ℤ := toInt16 ((lo + 256 * hi : ℕ) : ℤ)

/-- The loop of decodeRawPcm (lines 208-210): each 16-bit sample is
divided by 32768.0. -/
def decodePairs : List ℕ → List ℚ
  | lo :: hi :: rest => ((fromLEInt16 lo hi : ℚ) / 32768) :: decodePairs rest
  | _ => []

/-- decodeRawPcm (LiveVoiceMode.tsx lines 201-213).  Constructing
new Int16Array(arrayBuffer) throws a RangeError when the byte length is
not a multiple of 2; ctx.createBuffer(1, frameCount, 24000) throws a
NotSupportedError when frameCount is zero; otherwise every 16-bit
sample is mapped to dataInt16[i] / 32768.0. -/
def decodeRawPcm (bytes : List ℕ) : Except JsError (List ℚ) :=
  if bytes.length % 2 ≠ 0 then Except.error JsError.rangeError
  else if bytes.length = 0 then Except.error JsError.notSupported
  else Except.ok (decodePairs bytes)

/- ------------------------------------------------------------------ -/
/- Playback scheduler, from playAudioChunk (lines 165-199) and the
   interruption branch of handleServerMessage (lines 154-162).       -/
/- ------------------------------------------------------------------ -/

/-- An AudioBufferSourceNode as the scheduler sees it: the time its
start method was called with, the duration of its buffer, and whether
its stop method has been called. -/
structure SourceNode where
  startTime : ℚ
  duration : ℚ
  stopped : Bool
deriving DecidableEq, Repr

/-- The mutable scheduler state of LiveVoiceMode: activeSourcesRef
(line 26, a Set kept here in insertion order) and nextStartTimeRef
(line 25). -/
structure SchedState where
  activeSources : List SourceNode
  nextStartTime : ℚ
deriving DecidableEq, Repr

/-- source.stop(): throws InvalidStateError when stop was already
called on the node, otherwise marks the node stopped. -/
def stopNode (s : SourceNode) : Except JsError SourceNode :=
  if s.stopped then Except.error JsError.invalidState
  else Except.ok { s with stopped := true }

/-- try {source.stop();} catch(e) {} as a total function on the node
(lines 48 and 158): the InvalidStateError is swallowed. -/
def tryStop (s : SourceNode) : SourceNode :=
  match stopNode s with
  | Except.ok s2 => s2
  | Except.error _ => s

/-- try {source.stop();} catch(e) {} with the exception flow kept
visible: a swallowed error still yields a normal result. -/
def tryStopE (s : SourceNode) : Except JsError SourceNode :=
  match stopNode s with
  | Except.ok s2 => Except.ok s2
  | Except.error _ => Except.ok s

/-- The forEach loop of the flush (lines 157-159) and of cleanup
(lines 47-49): stop every node in turn; an uncaught exception in any
iteration would abort the whole loop, which is why each stop is
individually wrapped. -/
def stopAllNodes : List SourceNode → Except JsError (List SourceNode)
  | [] => Except.ok []
  | s :: rest =>
    match tryStopE s with
    | Except.ok s2 =>
      match stopAllNodes rest with
      | Except.ok l => Except.ok (s2 :: l)
      | Except.error e => Except.error e
    | Except.error e => Except.error e

/-- The scheduler state the interruption branch leaves behind:
activeSourcesRef.current.clear() and nextStartTimeRef.current = 0
(lines 160-161). -/
def flushedState : SchedState := { activeSources := [], nextStartTime := 0 }

/-- The interruption branch of handleServerMessage (lines 155-162):
stop every node in the active set (errors swallowed per node), clear
the set, and set the next-start-time cursor to 0.  The returned list
holds the final states of the node objects the loop stopped. -/
def interruptFlush (st : SchedState) : Except JsError (List SourceNode × SchedState) :=
  match stopAllNodes st.activeSources with
  | Except.ok stopped => Except.ok (stopped, flushedState)
  | Except.error e => Except.error e

/-- The scheduling core of playAudioChunk (lines 184-194): read
ctx.currentTime, raise the cursor to it if the cursor is behind, start
the node at the cursor, advance the cursor by the buffer duration, add
the node to the active set.  Returns the new state and the time passed
to source.start. -/
def enqueueChunk (st : SchedState) (now dur : ℚ) : SchedState × ℚ :=
  let cursor := if st.nextStartTime < now then now else st.nextStartTime
  ({ activeSources := st.activeSources ++ [⟨cursor, dur, false⟩],
     nextStartTime := cursor + dur }, cursor)

/-- playAudioChunk (lines 165-199): decode the raw PCM payload and
schedule it; any exception is caught (lines 196-198), logged, and the
chunk is dropped, leaving the scheduler state unchanged.  The buffer
duration is frameCount / sampleRate with sampleRate 24000. -/
def playAudioChunk (st : SchedState) (now : ℚ) (bytes : List ℕ) : SchedState :=
  match decodeRawPcm bytes with
  | Except.error _ => st
  | Except.ok samples => (enqueueChunk st now ((samples.length : ℚ) / 24000)).1

/-- Payload shape of one inbound message as handleServerMessage reads
it: an optional audio chunk (the bytes obtained from the base64 inline
data) and the serverContent.interrupted flag. -/
structure ServerMessage where
  audioData : Option (List ℕ)
  interrupted : Bool

/-- handleServerMessage (lines 143-163): play the audio part if
present, then, if the interrupted flag is set, run the flush.  The
returned list is empty when no flush ran. -/
def handleServerMessage (st : SchedState) (now : ℚ) (msg : ServerMessage) :
    Except JsError (List SourceNode × SchedState) :=
  let st1 := match msg.audioData with
    | some bytes => playAudioChunk st now bytes
    | none => st
  if msg.interrupted then interruptFlush st1 else Except.ok ([], st1)

/- ------------------------------------------------------------------ -/
/- Session lifecycle controller, from LiveVoiceMode.tsx: the ref cells
   of lines 17-29, cleanup (lines 40-65), the status state (line 12). -/
/- ------------------------------------------------------------------ -/

/-- Session status state machine (line 12). -/
inductive Status
  | connecting
  | connected
  | error
  | disconnected
deriving DecidableEq, Repr

/-- One MediaStreamTrack: its stop method is idempotent and never
throws. -/
structure Track where
  stopped : Bool
deriving DecidableEq, Repr

/-- A MediaStream as a collection of tracks. -/
structure MediaStream where
  tracks : List Track
deriving DecidableEq, Repr

/-- track.stop() (line 58). -/
def stopTrack (_ : Track) : Track := ⟨true⟩

/-- stream.getTracks().forEach(track => track.stop()) (line 58). -/
def stopTracks (m : MediaStream) : MediaStream := ⟨m.tracks.map stopTrack⟩

/-- The resource handles and observable state held by the LiveVoiceMode
controller: sessionPromiseRef, inputContextRef, outputContextRef,
streamRef, processorRef, sourceRef, outputNodeRef (lines 17-29), the
playback scheduler cells, and the status and volume state (lines
12-14).  The audio contexts and nodes are opaque; only whether a
handle is held matters here, so they are numbered tokens. -/
structure ControllerState where
  sessionPromise : Option ℕ
  inputContext : Option ℕ
  outputContext : Option ℕ
  stream : Option MediaStream
  processor : Option ℕ
  source : Option ℕ
  outputNode : Option ℕ
  activeSources : List SourceNode
  nextStartTime : ℚ
  status : Status
  volume : ℚ
deriving DecidableEq, Repr

/-- cleanup (lines 40-65).  It requests a session close best effort and
nulls sessionPromiseRef (lines 41-44); stops every active source with
the error swallowed and clears the set (lines 46-50); closes the two
contexts when their refs are non-null (lines 53-54); stops every track
of the stream when streamRef is non-null (lines 57-59); nulls
inputContextRef and outputContextRef (lines 61-62); sets status to
disconnected and volume to 0 (lines 63-64).  streamRef, processorRef,
sourceRef and outputNodeRef are never assigned null by this function. -/
def cleanup (st : ControllerState) : ControllerState :=
  { st with
    sessionPromise := none,
    activeSources := [],
    inputContext := none,
    outputContext := none,
    stream := st.stream.map stopTracks,
    status := Status.disconnected,
    volume := 0 }

/-- cleanup with its exception flow kept visible: the only synchronous
throw sites are the source.stop calls, each wrapped in its own
try/catch (line 48); the session close rejection is absorbed by .catch
(line 42) and track.stop never throws. -/
def cleanupE (st : ControllerState) : Except JsError ControllerState :=
  match stopAllNodes st.activeSources with
  | Except.ok _ => Except.ok (cleanup st)
  | Except.error e => Except.error e

/- ------------------------------------------------------------------ -/
/- Capture input and the mute flag, from setupAudioInput (lines
   109-141) and toggleMute (line 215).                               -/
/- ------------------------------------------------------------------ -/

/-- The LiveVoiceMode component state relevant to muting.  isMuted is
the useState cell (line 13).  handlerCapturedMuted records the value of
the render-scoped isMuted binding that the onaudioprocess closure
captured when setupAudioInput installed it (none before setup): in the
source, setupAudioInput is the function of the render whose effect ran
startSession, so the closure permanently sees that render's snapshot of
isMuted; later renders produce fresh isMuted bindings that the
already-installed handler never observes, and the handler is never
reinstalled (the effect depends only on isOpen, line 38). -/
structure VoiceState where
  status : Status
  isMuted : Bool
  handlerCapturedMuted : Option Bool
  sessionId : Option ℕ
deriving DecidableEq, Repr

/-- toggleMute (line 215): setIsMuted(!isMuted).  This updates the
state cell only; processor.onaudioprocess is not reassigned. -/
def toggleMute (st : VoiceState) : VoiceState := { st with isMuted := !st.isMuted }

/-- The body of processor.onaudioprocess (lines 118-137), parameterized
by the isMuted value its closure captured: if that captured value is
true the callback returns before doing anything; otherwise it encodes
the block and sends it to the session.  Returns the bytes handed to
session.sendRealtimeInput, or none when nothing is sent. -/
def onAudioProcess (capturedMuted : Bool) (block : List ℚ) : Option (List ℕ) :=
  if capturedMuted then none
  else some (createPcmBlobBytes block)

/-- One capture-block callback firing against the live component state:
the installed handler runs with its captured snapshot of isMuted, not
with the current value of the state cell. -/
def captureCallback (st : VoiceState) (block : List ℚ) : Option (List ℕ) :=
  match st.handlerCapturedMuted with
  | none => none
  | some captured => onAudioProcess captured block

/-- The component state right after onOpen fired with the initial
isMuted = false: status connected (line 91), audio input set up with
the handler capturing false (line 92), the session promise held. -/
def connectedVoice : VoiceState :=
  { status := Status.connected, isMuted := false,
    handlerCapturedMuted := some false, sessionId := some 0 }

/- ------------------------------------------------------------------ -/
/- Base64 transport, from arrayBufferToBase64 (services module, lines
   233-241, btoa over the byte-per-character binary string) and
   base64ToArrayBuffer (lines 220-228, atob then charCodeAt).  The
   fromCharCode / charCodeAt round trip is the identity on byte
   values, so the two functions are btoa and atob on byte lists;
   text is modeled as its list of character codes.                   -/
/- ------------------------------------------------------------------ -/

/-- Character code of base64 digit n in the standard alphabet
A-Z a-z 0-9 + / used by btoa. -/
def sextetToCode (n : ℕ) : ℕ :=
  if n < 26 then 65 + n
  else if n < 52 then 97 + (n - 26)
  else if n < 62 then 48 + (n - 52)
  else if n = 62 then 43
  else 47

/-- Base64 digit value of a character code, as atob reads it; none for
a character outside the alphabet. -/
def codeToSextet (c : ℕ) : Option ℕ :=
  if 65 ≤ c ∧ c ≤ 90 then some (c - 65)
  else if 97 ≤ c ∧ c ≤ 122 then some (26 + (c - 97))
  else if 48 ≤ c ∧ c ≤ 57 then some (52 + (c - 48))
  else if c = 43 then some 62
  else if c = 47 then some 63
  else none

/-- arrayBufferToBase64: btoa over the binary string built byte by
byte.  Three input bytes become four alphabet characters; a final
group of one or two bytes is padded with the character = (code 61). -/
def arrayBufferToBase64 : List ℕ → List ℕ
  | [] => []
  | [b0] => [sextetToCode (b0 / 4), sextetToCode (b0 % 4 * 16), 61, 61]
  | [b0, b1] => [sextetToCode (b0 / 4), sextetToCode (b0 % 4 * 16 + b1 / 16),
                 sextetToCode (b1 % 16 * 4), 61]
  | b0 :: b1 :: b2 :: rest =>
    sextetToCode (b0 / 4) :: sextetToCode (b0 % 4 * 16 + b1 / 16) ::
    sextetToCode (b1 % 16 * 4 + b2 / 64) :: sextetToCode (b2 % 64) ::
    arrayBufferToBase64 rest

/-- base64ToArrayBuffer: atob over the text, then one byte per
character code.  Groups of four characters decode to three bytes; a
final group padded with = (code 61) decodes to one or two bytes;
malformed input yields none (atob throws). -/
def base64ToArrayBuffer : List ℕ → Option (List ℕ)
  | [] => some []
  | c0 :: c1 :: c2 :: c3 :: rest =>
    match codeToSextet c0, codeToSextet c1 with
    | some s0, some s1 =>
      if c2 = 61 ∧ c3 = 61 ∧ rest = [] then some [s0 * 4 + s1 / 16]
      else if c3 = 61 ∧ rest = [] then
        match codeToSextet c2 with
        | some s2 => some [s0 * 4 + s1 / 16, s1 % 16 * 16 + s2 / 4]
        | none => none
      else
        match codeToSextet c2, codeToSextet c3, base64ToArrayBuffer rest with
        | some s2, some s3, some tail =>
          some ((s0 * 4 + s1 / 16) :: (s1 % 16 * 16 + s2 / 4) ::
                (s2 % 4 * 64 + s3) :: tail)
        | _, _, _ => none
    | _, _ => none
  | _ => none

/-- Full createPcmBlob (services module, lines 201-215): the PCM bytes
carried through the base64 transport encoding, tagged with the
declared input rate. -/
def createPcmBlob (data : List ℚ) : List ℕ × String :=
  (arrayBufferToBase64 (createPcmBlobBytes data), "audio/pcm;rate=16000")

/-- Claim-side description of the encoder, written from the words of
the specification: each sample is clamped to [-1, 1], a negative value
is multiplied by 32768 and a non-negative one by 32767, the result is
truncated to a 16-bit signed integer, and that integer is serialized
little-endian as two bytes (two's complement).  Stated separately from
createPcmBlobBytes so the two can be compared. -/
def pcm16SpecBytes (s : ℚ) : List ℕ :=
  let c := max (-1) (min 1 s)
  let v : ℤ := if c < 0 then truncQ (c * 32768) else truncQ (c * 32767)
  let u : ℕ := (if v < 0 then v + 65536 else v).toNat
  [u % 256, u / 256]

/-- A controller state in which every resource handle is held, as after
a fully completed startSession and setupAudioInput: used to evaluate
cleanup on a concrete fully populated state. -/
def sampleController : ControllerState :=
  { sessionPromise := some 1, inputContext := some 2, outputContext := some 3,
    stream := some ⟨[⟨false⟩]⟩, processor := some 4, source := some 5,
    outputNode := some 6, activeSources := [⟨0, 1, false⟩], nextStartTime := 3,
    status := Status.connected, volume := 1/2 }

/- ------------------------------------------------------------------ -/
/- Helper lemmas.                                                    -/
/- ------------------------------------------------------------------ -/

theorem toInt16_bounds (n : ℤ) : -32768 ≤ toInt16 n ∧ toInt16 n < 32768 := by
  unfold toInt16; omega

theorem toInt16_eq_of_range (n : ℤ) (h1 : -32768 ≤ n) (h2 : n < 32768) :
    toInt16 n = n := by
  unfold toInt16; omega

theorem clamp_bounds (s : ℚ) : -1 ≤ clamp s ∧ clamp s ≤ 1 := by
  unfold clamp
  constructor
  · exact le_max_left _ _
  · exact max_le (by norm_num) (min_le_left _ _)

theorem clamp_eq_self (s : ℚ) (h1 : -1 ≤ s) (h2 : s ≤ 1) : clamp s = s := by
  unfold clamp
  rw [min_eq_right h2, max_eq_right h1]

theorem encode_core_range (c : ℚ) (h1 : -1 ≤ c) (h2 : c ≤ 1) :
    -32768 ≤ truncQ (if c < 0 then c * 32768 else c * 32767) ∧
    truncQ (if c < 0 then c * 32768 else c * 32767) < 32768 := by
  unfold truncQ
  by_cases hc : c < 0
  · rw [if_pos hc, if_pos (by nlinarith)]
    have hpos : (0 : ℚ) ≤ -(c * 32768) := by nlinarith
    have hub : -(c * 32768) ≤ (32768 : ℚ) := by nlinarith
    have hf1 : (0 : ℤ) ≤ ⌊-(c * 32768)⌋ := Int.floor_nonneg.mpr hpos
    have hf2 : ⌊-(c * 32768)⌋ ≤ 32768 := by
      have := Int.floor_le_floor hub
      simpa using this
    omega
  · rw [if_neg hc]
    push_neg at hc
    rw [if_neg (by push_neg; nlinarith)]
    have hub : c * 32767 ≤ (32767 : ℚ) := by nlinarith
    have hf1 : (0 : ℤ) ≤ ⌊c * 32767⌋ := Int.floor_nonneg.mpr (by nlinarith)
    have hf2 : ⌊c * 32767⌋ ≤ 32767 := by
      have := Int.floor_le_floor hub
      simpa using this
    omega

theorem encodeSample_unwrapped (s : ℚ) :
    encodeSample s
      = truncQ (if clamp s < 0 then clamp s * 32768 else clamp s * 32767) := by
  have hb := clamp_bounds s
  have hr := encode_core_range (clamp s) hb.1 hb.2
  unfold encodeSample
  exact toInt16_eq_of_range _ hr.1 hr.2

theorem encodeSample_bounds (s : ℚ) :
    -32768 ≤ encodeSample s ∧ encodeSample s < 32768 := by
  unfold encodeSample
  exact toInt16_bounds _

theorem tryStop_stopped (s : SourceNode) : (tryStop s).stopped = true := by
  rcases s with ⟨t, d, b⟩
  cases b <;> rfl

theorem tryStopE_eq (s : SourceNode) : tryStopE s = Except.ok (tryStop s) := by
  unfold tryStopE tryStop
  cases stopNode s <;> rfl

theorem stopAllNodes_eq (l : List SourceNode) :
    stopAllNodes l = Except.ok (l.map tryStop) := by
  induction l with
  | nil => rfl
  | cons s rest ih => simp [stopAllNodes, tryStopE_eq, ih]

theorem interruptFlush_eq (st : SchedState) :
    interruptFlush st = Except.ok (st.activeSources.map tryStop, flushedState) := by
  unfold interruptFlush
  rw [stopAllNodes_eq]

theorem decodePairs_append (v : ℤ) (rest : List ℕ)
    (h1 : -32768 ≤ v) (h2 : v < 32768) :
    decodePairs (int16ToLEBytes v ++ rest) = ((v : ℚ) / 32768) :: decodePairs rest := by
  have hv : fromLEInt16 ((v % 65536).toNat % 256) ((v % 65536).toNat / 256) = v := by
    unfold fromLEInt16 toInt16
    omega
  simp only [int16ToLEBytes, List.cons_append, List.nil_append, decodePairs, hv]
  rfl

theorem decodePairs_encode (data : List ℚ) :
    decodePairs (createPcmBlobBytes data)
      = data.map (fun s => ((encodeSample s : ℚ) / 32768)) := by
  induction data with
  | nil => rfl
  | cons s rest ih =>
    have hb := encodeSample_bounds s
    simp only [createPcmBlobBytes, List.map_cons, List.flatten_cons]
    rw [decodePairs_append _ _ hb.1 hb.2]
    simpa [createPcmBlobBytes] using congrArg (fun l => ((encodeSample s : ℚ) / 32768) :: l) ih

theorem createPcmBlobBytes_length (data : List ℚ) :
    (createPcmBlobBytes data).length = 2 * data.length := by
  induction data with
  | nil => rfl
  | cons s rest ih =>
    have hstep : createPcmBlobBytes (s :: rest)
        = int16ToLEBytes (encodeSample s) ++ createPcmBlobBytes rest := by
      simp [createPcmBlobBytes]
    rw [hstep, List.length_append, ih]
    simp only [int16ToLEBytes, List.length_cons, List.length_nil]
    omega

theorem sample_roundtrip_bound (s : ℚ) (h1 : -1 ≤ s) (h2 : s ≤ 1) :
    |s - (encodeSample s : ℚ) / 32768| < 2 / 32768 := by
  rw [encodeSample_unwrapped, clamp_eq_self s h1 h2]
  unfold truncQ
  by_cases hs : s < 0
  · rw [if_pos hs, if_pos (by nlinarith)]
    have hf1 : (⌊-(s * 32768)⌋ : ℚ) ≤ -(s * 32768) := Int.floor_le _
    have hf2 : -(s * 32768) < (⌊-(s * 32768)⌋ : ℚ) + 1 := Int.lt_floor_add_one _
    rw [abs_lt]
    constructor <;> push_cast <;> linarith
  · push_neg at hs
    rw [if_neg (not_lt.mpr hs), if_neg (by push_neg; nlinarith)]
    have hf1 : (⌊s * 32767⌋ : ℚ) ≤ s * 32767 := Int.floor_le _
    have hf2 : s * 32767 < (⌊s * 32767⌋ : ℚ) + 1 := Int.lt_floor_add_one _
    rw [abs_lt]
    constructor <;> linarith

theorem encode_bytes_eq_spec (s : ℚ) :
    int16ToLEBytes (encodeSample s) = pcm16SpecBytes s := by
  have hb := clamp_bounds s
  have hr := encode_core_range (clamp s) hb.1 hb.2
  rw [encodeSample_unwrapped]
  unfold pcm16SpecBytes int16ToLEBytes clamp
  set v : ℤ := truncQ (if max (-1) (min 1 s) < 0
    then max (-1) (min 1 s) * 32768 else max (-1) (min 1 s) * 32767) with hvdef
  have hv1 : -32768 ≤ v := by
    simpa [hvdef, clamp, apply_ite truncQ] using hr.1
  have hv2 : v < 32768 := by
    simpa [hvdef, clamp, apply_ite truncQ] using hr.2
  have huq : (v % 65536).toNat = (if v < 0 then v + 65536 else v).toNat := by
    split <;> omega
  simp only [hvdef, apply_ite truncQ] at huq ⊢
  rw [huq]

theorem codeToSextet_sextetToCode : ∀ n : ℕ, n < 64 → codeToSextet (sextetToCode n) = some n := by
  decide

theorem sextetToCode_ne_61 : ∀ n : ℕ, n < 64 → sextetToCode n ≠ 61 := by
  decide

theorem base64_roundtrip_aux :
    ∀ bytes : List ℕ, (∀ b ∈ bytes, b < 256) →
      base64ToArrayBuffer (arrayBufferToBase64 bytes) = some bytes
  | [] => fun _ => rfl
  | [b0] => fun h => by
    have hb0 : b0 < 256 := h b0 (by simp)
    simp only [arrayBufferToBase64, base64ToArrayBuffer,
      codeToSextet_sextetToCode (b0 / 4) (by omega),
      codeToSextet_sextetToCode (b0 % 4 * 16) (by omega)]
    rw [if_pos (by simp : (_ ∧ _ ∧ _))]
    simp only [Option.some.injEq, List.cons.injEq, and_true]
    omega
  | [b0, b1] => fun h => by
    have hb0 : b0 < 256 := h b0 (by simp)
    have hb1 : b1 < 256 := h b1 (by simp)
    simp only [arrayBufferToBase64, base64ToArrayBuffer,
      codeToSextet_sextetToCode (b0 / 4) (by omega),
      codeToSextet_sextetToCode (b0 % 4 * 16 + b1 / 16) (by omega)]
    rw [if_neg (fun hand => sextetToCode_ne_61 (b1 % 16 * 4) (by omega) hand.1),
      if_pos (by simp : (_ ∧ _)), codeToSextet_sextetToCode (b1 % 16 * 4) (by omega)]
    simp only [Option.some.injEq, List.cons.injEq, and_true]
    exact ⟨by omega, by omega⟩
  | b0 :: b1 :: b2 :: rest => fun h => by
    have hb0 : b0 < 256 := h b0 (by simp)
    have hb1 : b1 < 256 := h b1 (by simp)
    have hb2 : b2 < 256 := h b2 (by simp)
    have ih := base64_roundtrip_aux rest (fun b hb => h b (by simp [hb]))
    simp only [arrayBufferToBase64, base64ToArrayBuffer,
      codeToSextet_sextetToCode (b0 / 4) (by omega),
      codeToSextet_sextetToCode (b0 % 4 * 16 + b1 / 16) (by omega)]
    rw [if_neg (fun hand => sextetToCode_ne_61 (b1 % 16 * 4 + b2 / 64) (by omega) hand.1),
      if_neg (fun hand => sextetToCode_ne_61 (b2 % 64) (by omega) hand.1),
      codeToSextet_sextetToCode (b1 % 16 * 4 + b2 / 64) (by omega),
      codeToSextet_sextetToCode (b2 % 64) (by omega), ih]
    simp only [Option.some.injEq, List.cons.injEq, and_true]
    exact ⟨by omega, by omega, by omega⟩

theorem encodeSample_zero : encodeSample 0 = 0 := by
  have hc : clamp 0 = 0 := by
    unfold clamp
    rw [min_eq_right (by norm_num : (0 : ℚ) ≤ 1),
      max_eq_right (by norm_num : (-1 : ℚ) ≤ 0)]
  simp only [encodeSample, hc]
  rw [if_neg (by norm_num), zero_mul]
  unfold truncQ
  rw [if_neg (by norm_num)]
  simp [toInt16]

theorem createPcmBlobBytes_zeros : createPcmBlobBytes [0, 0] = [0, 0, 0, 0] := by
  have h2 : int16ToLEBytes (encodeSample 0) = [0, 0] := by
    rw [encodeSample_zero]
    decide
  simp [createPcmBlobBytes, h2]

theorem encodeSample_cex : encodeSample ((65535 : ℚ) / 65536) = 32766 := by
  have hc : clamp ((65535 : ℚ) / 65536) = 65535 / 65536 :=
    clamp_eq_self _ (by norm_num) (by norm_num)
  simp only [encodeSample, hc]
  rw [if_neg (by norm_num)]
  have hq : ((65535 : ℚ) / 65536 * 32767) = 2147385345 / 65536 := by norm_num
  unfold truncQ
  rw [if_neg (by rw [hq]; norm_num), hq]
  have hfl : ⌊(2147385345 : ℚ) / 65536⌋ = 32766 := by
    rw [Int.floor_eq_iff]
    constructor <;> norm_num
  rw [hfl]
  decide

theorem createPcmBlobBytes_cex :
    createPcmBlobBytes [(65535 : ℚ) / 65536] = [254, 127] := by
  have h1 : createPcmBlobBytes [(65535 : ℚ) / 65536]
      = int16ToLEBytes (encodeSample ((65535 : ℚ) / 65536)) := by
    simp [createPcmBlobBytes]
  rw [h1, encodeSample_cex]
  decide

theorem stopTracks_idem (m : MediaStream) : stopTracks (stopTracks m) = stopTracks m := by
  cases m with
  | mk tracks =>
    have hcomp : stopTrack ∘ stopTrack = stopTrack := funext fun t => rfl
    simp [stopTracks, List.map_map, hcomp]

theorem cleanupE_eq (st : ControllerState) : cleanupE st = Except.ok (cleanup st) := by
  unfold cleanupE
  rw [stopAllNodes_eq]

/- ------------------------------------------------------------------ -/
/- Claims.                                                           -/
/- ------------------------------------------------------------------ -/

/-- Claim C1, counterexample.  The claim states that the interruption
flush resets the next-start-time cursor to the playback context current
time at the moment of flush, not to zero.  Concrete refutation: two
chunks are scheduled (cursor at 2) and an interruption message arrives
while the context current time is 3/2; the code resets the cursor to 0,
which is not 3/2. -/
theorem c1_flush_cursor_counterexample :
    handleServerMessage ⟨[⟨0, 1, false⟩, ⟨1, 1, false⟩], 2⟩ (3 / 2) ⟨none, true⟩
      = Except.ok ([⟨0, 1, true⟩, ⟨1, 1, true⟩], flushedState)
    ∧ flushedState.nextStartTime = 0
    ∧ flushedState.nextStartTime ≠ 3 / 2 := by
  refine ⟨rfl, rfl, ?_⟩
  norm_num [flushedState]

/-- Claim C1, amended.  For every interruption message, the flush stops
every node in the active playback set, clears the set, and resets the
next-start-time cursor to zero (not to the context current time); the
intended behavior is nevertheless observed at the next enqueue, whose
clamp schedules the chunk exactly at the context current time. -/
theorem c1_flush_amended (st : SchedState) (now d : ℚ) (hnow : 0 ≤ now) :
    handleServerMessage st now ⟨none, true⟩
      = Except.ok (st.activeSources.map tryStop, flushedState)
    ∧ (∀ n ∈ st.activeSources.map tryStop, n.stopped = true)
    ∧ flushedState.activeSources = []
    ∧ flushedState.nextStartTime = 0
    ∧ (enqueueChunk flushedState now d).2 = now := by
  refine ⟨?_, ?_, rfl, rfl, ?_⟩
  · simp [handleServerMessage, interruptFlush_eq]
  · intro n hn
    rw [List.mem_map] at hn
    obtain ⟨a, _, rfl⟩ := hn
    exact tryStop_stopped a
  · show (if (flushedState.nextStartTime : ℚ) < now then now
      else flushedState.nextStartTime) = now
    show (if (0 : ℚ) < now then now else 0) = now
    split_ifs with h
    · rfl
    · linarith

/-- Claim C1, witness for the amended statement at a concrete state:
one scheduled chunk, cursor at 5, next enqueue at context time 2. -/
theorem c1_flush_amended_witness :
    handleServerMessage ⟨[⟨0, 1, false⟩], 5⟩ 2 ⟨none, true⟩
      = Except.ok ((⟨[⟨0, 1, false⟩], 5⟩ : SchedState).activeSources.map tryStop,
                   flushedState)
    ∧ (∀ n ∈ (⟨[⟨0, 1, false⟩], 5⟩ : SchedState).activeSources.map tryStop,
        n.stopped = true)
    ∧ flushedState.activeSources = []
    ∧ flushedState.nextStartTime = 0
    ∧ (enqueueChunk flushedState 2 1).2 = 2 :=
  c1_flush_amended ⟨[⟨0, 1, false⟩], 5⟩ 2 1 (by norm_num)

/-- Claim C2 is a code defect: setting the mute flag is meant to make
every subsequent capture-block callback send nothing, but the installed
onaudioprocess closure reads the stale snapshot of isMuted captured
when the handler was installed (false), not the current flag, so after
toggleMute the callback still encodes and sends the block while the
state reports muted and connected.  Evaluated here at the failing
input: the session opened unmuted, then the user toggles mute, then a
capture block arrives, and the block is sent. -/
theorem c2_mute_stale_closure_bug :
    (toggleMute connectedVoice).isMuted = true
    ∧ (toggleMute connectedVoice).status = Status.connected
    ∧ captureCallback (toggleMute connectedVoice) [0, 0]
        = some (createPcmBlobBytes [0, 0])
    ∧ createPcmBlobBytes [0, 0] = [0, 0, 0, 0] := by
  exact ⟨rfl, rfl, rfl, createPcmBlobBytes_zeros⟩

/-- Claim C3, counterexample.  The claim states that after a double
cleanup every resource handle is null; but cleanup never assigns null
to streamRef, processorRef, sourceRef or outputNodeRef, so on a fully
populated controller state those four handles survive two cleanups. -/
theorem c3_cleanup_handles_counterexample :
    (cleanup (cleanup sampleController)).processor ≠ none
    ∧ (cleanup (cleanup sampleController)).source ≠ none
    ∧ (cleanup (cleanup sampleController)).outputNode ≠ none
    ∧ (cleanup (cleanup sampleController)).stream ≠ none := by
  decide

/-- Claim C3, amended.  Cleanup invoked twice in succession, from any
state including one where start never completed, does not throw and is
idempotent; after it returns the session handle and both audio context
handles are null, the active set is empty and the status is
disconnected, while the stream, processor, source and output node
handles keep their previous values (the stream has all tracks
stopped). -/
theorem c3_cleanup_amended (st : ControllerState) :
    cleanupE st = Except.ok (cleanup st)
    ∧ cleanupE (cleanup st) = Except.ok (cleanup (cleanup st))
    ∧ cleanup (cleanup st) = cleanup st
    ∧ (cleanup st).sessionPromise = none
    ∧ (cleanup st).inputContext = none
    ∧ (cleanup st).outputContext = none
    ∧ (cleanup st).activeSources = []
    ∧ (cleanup st).status = Status.disconnected
    ∧ (cleanup st).processor = st.processor
    ∧ (cleanup st).source = st.source
    ∧ (cleanup st).outputNode = st.outputNode
    ∧ (cleanup st).stream = st.stream.map stopTracks := by
  refine ⟨cleanupE_eq st, cleanupE_eq (cleanup st), ?_,
    rfl, rfl, rfl, rfl, rfl, rfl, rfl, rfl, rfl⟩
  have hs : (st.stream.map stopTracks).map stopTracks = st.stream.map stopTracks := by
    cases st.stream with
    | none => rfl
    | some m => simp [stopTracks_idem]
  simp [cleanup, hs]

/-- Claim C4, counterexample.  The claim bounds the per-element
round-trip error by 1/32768; at the sample 65535/65536 (representable
exactly as a 32-bit float) the encoder produces 32766 and the decoder
returns 16383/16384, an error of 3/65536 which exceeds 1/32768.
Moreover the empty array does not round trip at all: decoding a
zero-length buffer fails rather than yielding an empty array. -/
theorem c4_roundtrip_bound_counterexample :
    decodeRawPcm (createPcmBlobBytes [(65535 : ℚ) / 65536])
      = Except.ok [(16383 : ℚ) / 16384]
    ∧ ¬ |(65535 : ℚ) / 65536 - (16383 : ℚ) / 16384| ≤ 1 / 32768
    ∧ decodeRawPcm (createPcmBlobBytes ([] : List ℚ))
      = Except.error JsError.notSupported := by
  refine ⟨?_, ?_, rfl⟩
  · rw [createPcmBlobBytes_cex]
    unfold decodeRawPcm
    rw [if_neg (by decide), if_neg (by decide)]
    have hv : fromLEInt16 254 127 = 32766 := by decide
    simp only [decodePairs, hv]
    norm_num
  · rw [abs_of_nonneg (by norm_num)]
    norm_num

/-- Claim C4, amended.  For every nonempty array of samples in [-1, 1],
decoding the PCM16 encoding succeeds, yields an array of the same
length, and every element differs from the original by strictly less
than 2/32768 (the bound 1/32768 does hold for non-positive samples, but
non-negative samples are scaled by 32767 on encode and divided by 32768
on decode, which adds up to one extra quantum of error). -/
theorem c4_roundtrip_amended (x : List ℚ) (hne : x ≠ [])
    (hb : ∀ s ∈ x, -1 ≤ s ∧ s ≤ 1) :
    decodeRawPcm (createPcmBlobBytes x)
      = Except.ok (x.map (fun s => ((encodeSample s : ℚ) / 32768)))
    ∧ (x.map (fun s => ((encodeSample s : ℚ) / 32768))).length = x.length
    ∧ ∀ s ∈ x, |s - (encodeSample s : ℚ) / 32768| < 2 / 32768 := by
  refine ⟨?_, List.length_map _ _,
    fun s hs => sample_roundtrip_bound s (hb s hs).1 (hb s hs).2⟩
  have hx : x.length ≠ 0 := fun h => hne (List.length_eq_zero.mp h)
  unfold decodeRawPcm
  rw [createPcmBlobBytes_length]
  rw [if_neg (by omega), if_neg (by omega)]
  rw [decodePairs_encode]

/-- Claim C4, witness for the amended statement at the singleton
sample 1/2. -/
theorem c4_roundtrip_amended_witness :
    decodeRawPcm (createPcmBlobBytes [(1 : ℚ) / 2])
      = Except.ok ([(1 : ℚ) / 2].map (fun s => ((encodeSample s : ℚ) / 32768)))
    ∧ ([(1 : ℚ) / 2].map (fun s => ((encodeSample s : ℚ) / 32768))).length
        = [(1 : ℚ) / 2].length
    ∧ ∀ s ∈ [(1 : ℚ) / 2], |s - (encodeSample s : ℚ) / 32768| < 2 / 32768 :=
  c4_roundtrip_amended [(1 : ℚ) / 2] (by simp)
    (by intro s hs; rw [List.mem_singleton] at hs; subst hs; norm_num)

/-- Claim C5: for two chunks enqueued in order with no flush between
them, the second scheduled start time equals the first start time plus
the first duration (provided the context clock has not overrun the
cursor, which is what "no flush between them" presumes in the gapless
case); the cursor is clamped up to the context current time when it is
behind, left at its value otherwise, and advanced by the chunk duration
after each start. -/
theorem c5_gapless_scheduling (st : SchedState) (t1 t2 d1 d2 : ℚ)
    (h : t2 ≤ (enqueueChunk st t1 d1).2 + d1) :
    (enqueueChunk (enqueueChunk st t1 d1).1 t2 d2).2 = (enqueueChunk st t1 d1).2 + d1
    ∧ (enqueueChunk st t1 d1).1.nextStartTime = (enqueueChunk st t1 d1).2 + d1
    ∧ (enqueueChunk (enqueueChunk st t1 d1).1 t2 d2).1.nextStartTime
        = (enqueueChunk (enqueueChunk st t1 d1).1 t2 d2).2 + d2
    ∧ (st.nextStartTime < t1 → (enqueueChunk st t1 d1).2 = t1)
    ∧ (¬ st.nextStartTime < t1 → (enqueueChunk st t1 d1).2 = st.nextStartTime) := by
  refine ⟨?_, rfl, rfl, ?_, ?_⟩
  · show (if (enqueueChunk st t1 d1).1.nextStartTime < t2 then t2
        else (enqueueChunk st t1 d1).1.nextStartTime) = (enqueueChunk st t1 d1).2 + d1
    have h2 : (enqueueChunk st t1 d1).1.nextStartTime = (enqueueChunk st t1 d1).2 + d1 := rfl
    rw [h2, if_neg (not_lt.mpr h)]
  · intro h1
    show (if st.nextStartTime < t1 then t1 else st.nextStartTime) = t1
    rw [if_pos h1]
  · intro h1
    show (if st.nextStartTime < t1 then t1 else st.nextStartTime) = st.nextStartTime
    rw [if_neg h1]

/-- Claim C5, witness at a concrete run: empty scheduler, first chunk
of duration 1/2 at context time 0, second chunk of duration 3/10 at
context time 1/4. -/
theorem c5_gapless_scheduling_witness :
    (enqueueChunk (enqueueChunk ⟨[], 0⟩ 0 (1 / 2)).1 (1 / 4) (3 / 10)).2
        = (enqueueChunk ⟨[], 0⟩ 0 (1 / 2)).2 + 1 / 2
    ∧ (enqueueChunk ⟨[], 0⟩ 0 (1 / 2)).1.nextStartTime
        = (enqueueChunk ⟨[], 0⟩ 0 (1 / 2)).2 + 1 / 2
    ∧ (enqueueChunk (enqueueChunk ⟨[], 0⟩ 0 (1 / 2)).1 (1 / 4) (3 / 10)).1.nextStartTime
        = (enqueueChunk (enqueueChunk ⟨[], 0⟩ 0 (1 / 2)).1 (1 / 4) (3 / 10)).2 + 3 / 10
    ∧ ((⟨[], 0⟩ : SchedState).nextStartTime < 0
        → (enqueueChunk ⟨[], 0⟩ 0 (1 / 2)).2 = 0)
    ∧ (¬ (⟨[], 0⟩ : SchedState).nextStartTime < 0
        → (enqueueChunk ⟨[], 0⟩ 0 (1 / 2)).2 = (⟨[], 0⟩ : SchedState).nextStartTime) :=
  c5_gapless_scheduling ⟨[], 0⟩ 0 (1 / 4) (1 / 2) (3 / 10)
    (by norm_num [enqueueChunk])

/-- Claim C6: decoding a byte sequence of odd length fails with the
RangeError raised by the Int16Array constructor, and playAudioChunk
consequently drops the chunk and leaves the scheduler state unchanged;
no truncated buffer is ever produced. -/
theorem c6_odd_length_decode_fails (bytes : List ℕ) (st : SchedState) (now : ℚ)
    (h : bytes.length % 2 = 1) :
    decodeRawPcm bytes = Except.error JsError.rangeError
    ∧ playAudioChunk st now bytes = st := by
  have hd : decodeRawPcm bytes = Except.error JsError.rangeError := by
    unfold decodeRawPcm
    rw [if_pos (by omega)]
  refine ⟨hd, ?_⟩
  unfold playAudioChunk
  rw [hd]

/-- Claim C6, witness at the one-byte sequence. -/
theorem c6_odd_length_decode_fails_witness :
    decodeRawPcm [7] = Except.error JsError.rangeError
    ∧ playAudioChunk ⟨[], 0⟩ 0 [7] = ⟨[], 0⟩ :=
  c6_odd_length_decode_fails [7] ⟨[], 0⟩ 0 rfl

/-- Claim C7: the encoder clamps each sample to [-1, 1], multiplies a
negative value by 32768 and a non-negative one by 32767, truncates to a
16-bit signed integer and serializes it little-endian; the output byte
sequence is exactly twice as long as the input sample sequence.  Stated
as agreement of the source encoder with the independently written
claim-side description pcm16SpecBytes. -/
theorem c7_encoder_spec (data : List ℚ) :
    createPcmBlobBytes data = (data.map pcm16SpecBytes).flatten
    ∧ (createPcmBlobBytes data).length = 2 * data.length := by
  refine ⟨?_, createPcmBlobBytes_length data⟩
  unfold createPcmBlobBytes
  have hfun : (fun s => int16ToLEBytes (encodeSample s)) = pcm16SpecBytes :=
    funext encode_bytes_eq_spec
  rw [hfun]

/-- Claim C8, counterexample.  The claim calls a flush on an empty
active set a no-op; the flush does not raise and stops nothing, but it
still writes 0 into the next-start-time cursor, so on a state with an
empty set and cursor 5 the state is changed. -/
theorem c8_flush_noop_counterexample :
    interruptFlush ⟨[], 5⟩ = Except.ok ([], flushedState)
    ∧ flushedState.nextStartTime ≠ (⟨[], 5⟩ : SchedState).nextStartTime := by
  refine ⟨rfl, ?_⟩
  norm_num [flushedState]

/-- Claim C8, amended.  A flush on an empty active playback set raises
nothing and stops no node, leaving the set empty, though it does reset
the cursor to zero; and stopping an already-stopped playback node
raises InvalidStateError, which the per-node try/catch of both flush
and cleanup swallows, so the error never propagates. -/
theorem c8_flush_amended (st : SchedState) (s : SourceNode)
    (h1 : st.activeSources = []) (h2 : s.stopped = true) :
    interruptFlush st = Except.ok ([], flushedState)
    ∧ flushedState.activeSources = []
    ∧ flushedState.nextStartTime = 0
    ∧ stopNode s = Except.error JsError.invalidState
    ∧ tryStopE s = Except.ok s := by
  refine ⟨?_, rfl, rfl, ?_, ?_⟩
  · rw [interruptFlush_eq, h1]
    rfl
  · unfold stopNode
    rw [if_pos h2]
  · simp [tryStopE, stopNode, h2]

/-- Claim C8, witness: empty set with cursor 7, and a node whose stop
was already called. -/
theorem c8_flush_amended_witness :
    interruptFlush ⟨[], 7⟩ = Except.ok ([], flushedState)
    ∧ flushedState.activeSources = []
    ∧ flushedState.nextStartTime = 0
    ∧ stopNode ⟨1, 2, true⟩ = Except.error JsError.invalidState
    ∧ tryStopE ⟨1, 2, true⟩ = Except.ok ⟨1, 2, true⟩ :=
  c8_flush_amended ⟨[], 7⟩ ⟨1, 2, true⟩ rfl rfl

/-- Claim C9: for every byte sequence, decoding the text produced by
the binary-to-text transport encoding yields exactly the original
bytes; base64ToArrayBuffer inverts arrayBufferToBase64 with no data
loss. -/
theorem c9_base64_roundtrip (bytes : List ℕ) (h : ∀ b ∈ bytes, b < 256) :
    base64ToArrayBuffer (arrayBufferToBase64 bytes) = some bytes :=
  base64_roundtrip_aux bytes h

/-- Claim C9, witness: a four-byte sequence covering a padded final
group. -/
theorem c9_base64_roundtrip_witness :
    base64ToArrayBuffer (arrayBufferToBase64 [0, 127, 255, 10]) = some [0, 127, 255, 10] :=
  c9_base64_roundtrip [0, 127, 255, 10] (by decide)

/-- Claim C10: at every enqueue the time passed to the playback node
start operation is at least the context current time — the cursor is
clamped up before starting — including the first enqueue after a flush
or session start has reset the cursor to zero. -/
theorem c10_no_past_scheduling (st : SchedState) (now dur : ℚ) :
    now ≤ (enqueueChunk st now dur).2
    ∧ flushedState.nextStartTime = 0
    ∧ now ≤ (enqueueChunk flushedState now dur).2 := by
  refine ⟨?_, rfl, ?_⟩
  · show now ≤ (if st.nextStartTime < now then now else st.nextStartTime)
    split_ifs with h
    · exact le_refl now
    · exact le_of_not_lt h
  · show now ≤ (if flushedState.nextStartTime < now then now else flushedState.nextStartTime)
    split_ifs with h
    · exact le_refl now
    · exact le_of_not_lt h

end VoicePipeline
